import Mathlib

/-!
Shallow embedding of `orthanc_access.py` (orthanc-icf-ui): the Orthanc HTTP
client (`login`, `query`, `export`) and the workflow orchestration pieces of
the textual app (`icf_workflow`, `call_icf`, `_parse_id`, the query-success
handler updating `listed_studies`).

Network I/O is modelled by environment functions passed explicitly: an HTTP
call either raises (modelled `Except.error`) or yields a `Response` carrying a
numeric status and a parsed body.  `httpx`'s `raise_for_status` raises on any
non-2xx status.  The filesystem touched by `export` is an explicit record of
files (byte lists) and extracted directories.  External subprocesses are
modelled by their exit codes; the on-screen log becomes a list of events.
-/

namespace OrthancICF

/-- Success statuses (2xx), as `httpx.Response.is_success`; `raise_for_status`
raises on anything else. -/
def isSuccessStatus (s : Nat) : Bool := 200 ≤ s && s < 300

/-- An HTTP response: numeric status plus an already-parsed body. -/
structure Response (α : Type) where
  status : Nat
  body : α
  deriving DecidableEq, Repr

/-- An exception raised during a network call (connection error, decode
error, ...) before any status could be inspected. -/
structure NetError where
  msg : String
  deriving DecidableEq, Repr

/-! ## OrthancClient.login -/

/-- The authentication configuration of the `httpx.AsyncClient` built in
`login`: no `auth` argument, or basic auth with user and password. -/
inductive Auth
  | anonymous
  | basic (user password : String)
  deriving DecidableEq, Repr

/-- Auth used by `login`: `httpx.AsyncClient()` when both strings are empty,
and `httpx.AsyncClient(auth=(user, password))` otherwise. -/
def mkClientAuth (user password : String) : Auth :=
  if user == "" && password == "" then .anonymous else .basic user password

/-- The mutable state of an `OrthancClient` instance: base url and the
`self.client` slot (`None` until `login` first runs). -/
structure OrthancClient where
  baseurl : String
  client : Option Auth
  deriving DecidableEq, Repr

/-- Outcome of `login`: silent success, a raised network exception, or the
`HTTPStatusError` raised by `raise_for_status` (carrying the status). -/
inductive LoginResult
  | ok
  | netFailure (e : NetError)
  | httpError (status : Nat)
  deriving DecidableEq, Repr

/-- Model of `OrthancClient.login`: replace `self.client` with a client built from the
supplied credentials, then `GET {base}/system` with that client and
`raise_for_status`.  `probe` is the network environment: the response of
`GET /system` as a function of the auth configuration used to issue it. -/
def login (st : OrthancClient) (user password : String)
    (probe : Auth → Except NetError (Response Unit)) :
    OrthancClient × LoginResult :=
  let auth := mkClientAuth user password
  let st' := { st with client := some auth }
  match probe auth with
  | .error e => (st', .netFailure e)
  | .ok r =>
      if isSuccessStatus r.status then (st', .ok) else (st', .httpError r.status)

/-! ## OrthancClient.query -/

/-- How `query` can fail: the `/tools/find` POST raises, `raise_for_status`
on its response raises (non-2xx), or the `GET /studies/{id}` detail fetch for
some study raises.  The detail fetch's status is never checked in the code. -/
inductive QueryError
  | findFailed (e : NetError)
  | findStatus (status : Nat)
  | detailFailed (study_id : String) (e : NetError)
  deriving DecidableEq, Repr

/-- The loop of `query`: for each matched study id, `GET /studies/{id}` and
extract `PatientMainDicomTags.PatientID` (possibly absent, hence
`Option String`).  A raised exception aborts the whole loop, discarding the
results accumulated so far. -/
def fetchDetails (detail : String → Except NetError (Option String)) :
    List String → Except QueryError (List (Option String × String))
  | [] => .ok []
  | sid :: rest =>
      match detail sid with
      | .error e => .error (.detailFailed sid e)
      | .ok pid =>
          match fetchDetails detail rest with
          | .error e => .error e
          | .ok tail => .ok ((pid, sid) :: tail)

/-- Model of `OrthancClient.query`: POST `/tools/find` (body fixed by the date),
`raise_for_status`, then the per-study detail loop.  `find` is the outcome of
the POST, `detail` the outcome of each `GET /studies/{id}` (error = raised
exception while fetching or decoding). -/
def query (find : Except NetError (Response (List String)))
    (detail : String → Except NetError (Option String)) :
    Except QueryError (List (Option String × String)) :=
  match find with
  | .error e => .error (.findFailed e)
  | .ok r =>
      if isSuccessStatus r.status then fetchDetails detail r.body
      else .error (.findStatus r.status)

/-! ## Filesystem model and OrthancClient.export -/

/-- An entry of an extracted directory, as seen by `Path.iterdir` /
`is_dir`. -/
structure DirEntry where
  name : String
  isDir : Bool
  deriving DecidableEq, Repr

/-- The top-level entries a zip archive extracts to. -/
abbrev ZipContents := List DirEntry

/-- The slice of the filesystem `export` touches: regular files (path to
byte list) and extracted directories (path to top-level entries). -/
structure FS where
  files : List (String × List Nat)
  dirs : List (String × ZipContents)
  deriving DecidableEq, Repr

def FS.getFile (fs : FS) (p : String) : Option (List Nat) :=
  (fs.files.find? (fun kv => kv.1 == p)).map (·.2)

def FS.setFile (fs : FS) (p : String) (c : List Nat) : FS :=
  { fs with files := (p, c) :: fs.files.filter (fun kv => kv.1 != p) }

/-- Effect of `Path.unlink`. -/
def FS.removeFile (fs : FS) (p : String) : FS :=
  { fs with files := fs.files.filter (fun kv => kv.1 != p) }

/-- Effect of `ZipFile.extractall(out_path)`. -/
def FS.setDir (fs : FS) (p : String) (c : ZipContents) : FS :=
  { fs with dirs := (p, c) :: fs.dirs.filter (fun kv => kv.1 != p) }

def FS.getDir (fs : FS) (p : String) : Option ZipContents :=
  (fs.dirs.find? (fun kv => kv.1 == p)).map (·.2)

/-- Append bytes to a file (one `f.write(chunk)` of the download loop). -/
def FS.appendFile (fs : FS) (p : String) (c : List Nat) : FS :=
  fs.setFile p (((fs.getFile p).getD []) ++ c)

/-- The download loop of `export`: `async for chunk in r.aiter_bytes(...)`,
writing each received chunk to the open file in turn. -/
def writeChunks (fs : FS) (p : String) : List (List Nat) → FS
  | [] => fs
  | c :: cs => writeChunks (fs.appendFile p c) p cs

/-- How `export` can fail: the archive stream request raises, or
`ZipFile(zip_path)` / extraction raises (`BadZipFile`).  The HTTP status of
the stream is never checked in the code. -/
inductive ExportError
  | streamFailed (e : NetError)
  | badZip
  deriving DecidableEq, Repr

/-- Value of `tempfile.gettempdir()`, fixed for the model. -/
def tmpdir : String := "/tmp"

/-- Path `outdir.joinpath(f"{study_id}.zip")`. -/
def zipPath (study_id : String) : String := tmpdir ++ "/" ++ study_id ++ ".zip"

/-- Path `outdir.joinpath(f"{study_id}")`: the output directory is named after the
study id. -/
def outPath (study_id : String) : String := tmpdir ++ "/" ++ study_id

/-- Model of `OrthancClient.export`: stream `GET /studies/{id}/archive` chunk-wise
into `{tmp}/{id}.zip`, unpack that file into `{tmp}/{id}`, delete the zip,
return the output directory.  `unzip` models the `zipfile` library: `none`
when the bytes are not a valid archive.  `stream` is the outcome of opening
the response stream; its chunks are the body.  No `raise_for_status` is
called, matching the source. -/
def exportStudy (unzip : List Nat → Option ZipContents)
    (stream : Except NetError (Response (List (List Nat))))
    (study_id : String) (fs : FS) : FS × Except ExportError String :=
  match stream with
  | .error e => (fs, .error (.streamFailed e))
  | .ok r =>
      let zp := zipPath study_id
      let fs1 := writeChunks (fs.setFile zp []) zp r.body
      match unzip ((fs1.getFile zp).getD []) with
      | none => (fs1, .error .badZip)
      | some contents =>
          let fs2 := fs1.setDir (outPath study_id) contents
          let fs3 := fs2.removeFile zp
          (fs3, .ok (outPath study_id))

/-! ## OrthancApp._parse_id -/

/-- Python's `str.partition("_")` restricted to what `_parse_id` consumes:
`none` when the string has no underscore, otherwise the character lists
before and after the first underscore. -/
def splitFirstUnderscore : List Char → Option (List Char × List Char)
  | [] => none
  | c :: cs =>
      if c = '_' then some ([], cs)
      else
        match splitFirstUnderscore cs with
        | none => none
        | some (pre, post) => some (c :: pre, post)

/-- Model of `OrthancApp._parse_id`: `study, _, visit = identifier.partition("_")`;
if `visit == ""` (no underscore, or nothing after the first one), the result
is `("unknown", study)`; otherwise `(study, visit)`. -/
def parse_id (identifier : String) : String × String :=
  match splitFirstUnderscore identifier.data with
  | none => ("unknown", identifier)
  | some (pre, post) =>
      if post = [] then ("unknown", String.mk pre)
      else (String.mk pre, String.mk post)

/-! ## OrthancApp.call_icf / OrthancApp.icf_workflow -/

/-- What the workflow makes observable: the log lines it writes and the
subprocess invocations it performs.  `cmdResult` is one `call_icf`: the ICF
subcommand, the `--id` pair it received, and the child's exit code (logged
`OK` when `0`, `ERROR` otherwise). -/
inductive WEvent
  | processing (study_id : String)
  | exportAttempt (study_id : String)
  | exported (path : String)
  | cmdResult (cmd studyId visitId : String) (code : Int)
  deriving DecidableEq, Repr

/-- Whether `call_icf` logs `OK`: exactly when the subprocess exited with code 0. -/
def cmdOk : WEvent → Bool
  | .cmdResult _ _ _ code => code == 0
  | _ => false

/-- Whether `call_icf` logs `ERROR {returncode}`: exactly on a nonzero exit code. -/
def cmdFailed : WEvent → Bool
  | .cmdResult _ _ _ code => code != 0
  | _ => false

def isCmdResult : WEvent → Bool
  | .cmdResult _ _ _ _ => true
  | _ => false

/-- The four ICF subcommands `icf_workflow` invokes, in source order. -/
def icfCommands : List String :=
  ["make_studyvisit_archive", "deposit_visit_metadata",
   "deposit_visit_dataset", "catalogify_studyvisit_from_meta"]

/-- What `icf_workflow` needs of one exported study: the returned path and
the entries `export_dir.iterdir()` sees. -/
structure ExportedDir where
  path : String
  entries : List DirEntry
  deriving DecidableEq, Repr

/-- The four sequential `call_icf` invocations for one study: none is guarded
on the success of a previous one. -/
def runIcfCommands (studyId visitId : String) (exits : String → Int) :
    List WEvent :=
  icfCommands.map (fun c => .cmdResult c studyId visitId (exits c))

/-- Model of `OrthancApp.icf_workflow`, observed through its events.  Environments:
`exp` is `self.orthanc.export` (`none` = the await raised), `listed` is
`self.listed_studies` (`none` = `KeyError`), `exits s c` the exit code of ICF
subcommand `c` for study `s`.  The boolean is `true` when the coroutine ran
to completion; `false` means an exception escaped (the worker errors), which
in the source ends the whole batch — there is no try/except in the loop.
Per study: log `Processing ...`, await export (a raised error propagates),
log `Exported ...`, `assert len(subdirs) == 1`, look up the patient id,
`_parse_id` it, then the four unguarded `call_icf` invocations. -/
def icf_workflow (exp : String → Option ExportedDir)
    (listed : String → Option String)
    (exits : String → String → Int) :
    List String → List WEvent × Bool
  | [] => ([], true)
  | s :: rest =>
      match exp s with
      | none => ([.processing s, .exportAttempt s], false)
      | some d =>
          let hd := [WEvent.processing s, .exportAttempt s, .exported d.path]
          if (d.entries.filter (·.isDir)).length = 1 then
            match listed s with
            | none => (hd, false)
            | some pid =>
                let ids := parse_id pid
                let cmds := runIcfCommands ids.1 ids.2 (exits s)
                let tail := icf_workflow exp listed exits rest
                (hd ++ cmds ++ tail.1, tail.2)
          else (hd, false)

/-! ## OrthancApp.on_worker_state_changed (query success branch) -/

/-- A finite map from archive study ids to patient identifiers, as a lookup
function (`none` = key absent).  Values are `Option String` because the
`PatientID` tag may be missing from the study metadata. -/
abbrev StudyMap := String → Option (Option String)

def emptyStudyMap : StudyMap := fun _ => none

/-- One binding of a Python dict: later insertions for the same key win. -/
def mapInsert (m : StudyMap) (k : String) (v : Option String) : StudyMap :=
  fun x => if x = k then some v else m x

/-- The dict comprehension of the query-success branch:
`{study_id: patientID for patientID, study_id in event.worker.result}`. -/
def listedStudiesOf (result : List (Option String × String)) : StudyMap :=
  result.foldl (fun m pr => mapInsert m pr.2 pr.1) emptyStudyMap

/-- The app state the query-success branch writes. -/
structure AppState where
  listed_studies : StudyMap

/-- The `WorkerState.SUCCESS` branch for the `query` worker: assign a fresh
dict built from the result to `self.listed_studies`, discarding the prior
mapping entirely. -/
def on_query_success (st : AppState) (result : List (Option String × String)) :
    AppState :=
  { st with listed_studies := listedStudiesOf result }

/-- Specification-side mapping, for the refinement comparison: the dict
literal {S1: P1, S2: P2, ...} built from (archiveStudyId, patientIdentifier)
pairs, later entries overriding earlier ones. -/
def claimedMapping (pairs : List (String × Option String)) : StudyMap :=
  pairs.foldl (fun m pr => mapInsert m pr.1 pr.2) emptyStudyMap

/-! ## Theorems -/

/-- C9: with empty username and password, `login` issues the probe without an
authorization header (the client it builds is anonymous); it succeeds exactly
when the probe endpoint returns a 2xx status, and on any non-2xx response it
fails with an error carrying the server's HTTP status. -/
theorem login_empty_credentials_unauthenticated :
    mkClientAuth "" "" = Auth.anonymous ∧
    ∀ (st : OrthancClient) (probe : Auth → Except NetError (Response Unit))
      (r : Response Unit), probe Auth.anonymous = .ok r →
      (((login st "" "" probe).2 = .ok) ↔ isSuccessStatus r.status = true) ∧
      (isSuccessStatus r.status = false →
        (login st "" "" probe).2 = .httpError r.status) := by
  have hA : mkClientAuth "" "" = Auth.anonymous := by decide
  refine ⟨hA, ?_⟩
  intro st probe r h
  constructor
  · by_cases hs : isSuccessStatus r.status <;> simp [login, hA, h, hs]
  · intro hs
    simp [login, hA, h, hs]

/-- Witness for C9: an anonymous probe answered with status 200 makes
`login "" ""` succeed. -/
theorem login_empty_credentials_unauthenticated_witness :
    (login ⟨"b", none⟩ "" "" (fun _ => .ok ⟨200, ()⟩)).2 = .ok :=
  ((login_empty_credentials_unauthenticated.2 ⟨"b", none⟩
      (fun _ => .ok ⟨200, ()⟩) ⟨200, ()⟩ rfl).1).mpr (by decide)

/-- C10: `login` overwrites the stored client with one built from the
supplied credentials before the probe is issued, so the new (unvalidated)
credentials are retained even when the probe fails — the previous state is
not restored on error. -/
theorem login_replaces_client_before_probe :
    (∀ (st : OrthancClient) (user password : String)
       (probe : Auth → Except NetError (Response Unit)),
       (login st user password probe).1.client
         = some (mkClientAuth user password)) ∧
    (∀ (st : OrthancClient) (user password : String)
       (probe : Auth → Except NetError (Response Unit)) (e : NetError),
       probe (mkClientAuth user password) = .error e →
       login st user password probe
         = ({ st with client := some (mkClientAuth user password) },
            .netFailure e)) := by
  constructor
  · intro st user password probe
    cases h : probe (mkClientAuth user password) with
    | error e => simp [login, h]
    | ok r => by_cases hs : isSuccessStatus r.status <;> simp [login, h, hs]
  · intro st user password probe e h
    simp [login, h]

/-- Witness for C10: a failing probe still leaves the freshly-built
credentials in the client slot. -/
theorem login_replaces_client_before_probe_witness :
    login ⟨"b", some Auth.anonymous⟩ "u" "pw" (fun _ => .error ⟨"down"⟩)
      = ({ baseurl := "b", client := some (mkClientAuth "u" "pw") },
         .netFailure ⟨"down"⟩) :=
  login_replaces_client_before_probe.2 ⟨"b", some Auth.anonymous⟩ "u" "pw"
    (fun _ => .error ⟨"down"⟩) ⟨"down"⟩ rfl

/-- C8: after a successful search with result `[(P1,S1), (P2,S2), ...]` the
`listed_studies` mapping is exactly the dict keyed by archive study id with
the patient identifiers as values, and the prior mapping is discarded
wholesale (the new state does not depend on the old one). -/
theorem listed_studies_replaced_by_search_result :
    (∀ (st st' : AppState) (result : List (Option String × String)),
       on_query_success st result = on_query_success st' result) ∧
    (∀ (st : AppState) (result : List (Option String × String)),
       (on_query_success st result).listed_studies
         = claimedMapping (result.map (fun pr => (pr.2, pr.1)))) ∧
    (∀ st : AppState,
       ((on_query_success st
           [(some "P1", "S1"), (some "P2", "S2")]).listed_studies "S1"
          = some (some "P1")) ∧
       ((on_query_success st
           [(some "P1", "S1"), (some "P2", "S2")]).listed_studies "S2"
          = some (some "P2")) ∧
       ((on_query_success st
           [(some "P1", "S1"), (some "P2", "S2")]).listed_studies "S3"
          = none)) := by
  refine ⟨fun st st' result => rfl, ?_, ?_⟩
  · intro st result
    simp [on_query_success, listedStudiesOf, claimedMapping, List.foldl_map]
  · intro st
    exact ⟨rfl, rfl, rfl⟩

/-- Counterexample to C1: with two selected studies where export raises on
the first, the workflow stops before the second study — no export is
attempted for it (although the second study alone would process fine), and
the coroutine errors instead of completing. -/
theorem icf_workflow_first_export_failure_skips_second :
    icf_workflow
        (fun s => if s = "B" then some ⟨"/tmp/B", [⟨"sub", true⟩]⟩ else none)
        (fun _ => some "ST_V1") (fun _ _ => 0) ["A", "B"]
      = ([.processing "A", .exportAttempt "A"], false) ∧
    WEvent.exportAttempt "B" ∉
      (icf_workflow
          (fun s => if s = "B" then some ⟨"/tmp/B", [⟨"sub", true⟩]⟩ else none)
          (fun _ => some "ST_V1") (fun _ _ => 0) ["A", "B"]).1 ∧
    (icf_workflow
        (fun s => if s = "B" then some ⟨"/tmp/B", [⟨"sub", true⟩]⟩ else none)
        (fun _ => some "ST_V1") (fun _ _ => 0) ["B"]).2 = true := by
  exact ⟨by decide, by decide, by decide⟩

/-- C1 (amended): if `exportStudy` raises for a selected study, the
unhandled exception aborts the whole batch: the failure is reported as a
worker error and no subsequent selected study is attempted. -/
theorem icf_workflow_export_failure_aborts_batch :
    ∀ (exp : String → Option ExportedDir) (listed : String → Option String)
      (exits : String → String → Int) (s : String) (rest : List String),
      exp s = none →
      icf_workflow exp listed exits (s :: rest)
        = ([.processing s, .exportAttempt s], false) := by
  intro exp listed exits s rest h
  simp [icf_workflow, h]

/-- Witness for the amended C1: a concrete failing first export aborts the
two-study batch right away. -/
theorem icf_workflow_export_failure_aborts_batch_witness :
    icf_workflow (fun _ => none) (fun _ => none) (fun _ _ => 0) ["A", "B"]
      = ([.processing "A", .exportAttempt "A"], false) :=
  icf_workflow_export_failure_aborts_batch (fun _ => none) (fun _ => none)
    (fun _ _ => 0) "A" ["B"] rfl

/-- A raised detail fetch for any study id in the list makes the whole
detail loop of `query` fail. -/
theorem fetchDetails_error_of_mem :
    ∀ (detail : String → Except NetError (Option String)) (ids : List String)
      (sid : String) (e : NetError), sid ∈ ids → detail sid = .error e →
      ∃ err, fetchDetails detail ids = .error err := by
  intro detail ids
  induction ids with
  | nil => intro sid e h; cases h
  | cons a rest ih =>
      intro sid e hmem hd
      cases ha : detail a with
      | error e' => exact ⟨.detailFailed a e', by simp [fetchDetails, ha]⟩
      | ok pid =>
          rcases List.mem_cons.mp hmem with h | h
          · subst h; simp [hd] at ha
          · obtain ⟨err, herr⟩ := ih sid e h hd
            exact ⟨err, by simp [fetchDetails, ha, herr]⟩

/-- C2: a date query fails when the initial find request raises, or when its
response has a non-2xx status; and when the find succeeds but the detail
fetch for any returned study raises, the whole search fails — it never
returns partial results. -/
theorem query_all_or_nothing :
    (∀ (e : NetError) (detail : String → Except NetError (Option String)),
       query (.error e) detail = .error (.findFailed e)) ∧
    (∀ (r : Response (List String))
       (detail : String → Except NetError (Option String)),
       isSuccessStatus r.status = false →
       query (.ok r) detail = .error (.findStatus r.status)) ∧
    (∀ (r : Response (List String))
       (detail : String → Except NetError (Option String))
       (sid : String) (e : NetError),
       isSuccessStatus r.status = true → sid ∈ r.body →
       detail sid = .error e →
       ∃ err, query (.ok r) detail = .error err) := by
  refine ⟨fun e detail => rfl, ?_, ?_⟩
  · intro r detail hs
    simp [query, hs]
  · intro r detail sid e hs hmem hd
    obtain ⟨err, herr⟩ := fetchDetails_error_of_mem detail r.body sid e hmem hd
    exact ⟨err, by simp [query, hs, herr]⟩

/-- Witness for C2: a 2xx find returning two ids, with the detail fetch
raising for the second, makes the whole query fail. -/
theorem query_all_or_nothing_witness :
    ∃ err,
      query (.ok ⟨200, ["a", "b"]⟩)
          (fun s => if s == "b" then .error ⟨"boom"⟩ else .ok (some "P"))
        = .error err :=
  query_all_or_nothing.2.2 ⟨200, ["a", "b"]⟩
    (fun s => if s == "b" then .error ⟨"boom"⟩ else .ok (some "P"))
    "b" ⟨"boom"⟩ (by decide) (by decide) rfl

/-- Underscore-free character lists make `splitFirstUnderscore` return
`none`. -/
theorem splitFirstUnderscore_eq_none :
    ∀ l : List Char, '_' ∉ l → splitFirstUnderscore l = none := by
  intro l
  induction l with
  | nil => intro; rfl
  | cons c cs ih =>
      intro h
      have hc : ¬ c = '_' := fun hc => h (by simp [hc])
      have hcs : '_' ∉ cs := fun hm => h (List.mem_cons_of_mem c hm)
      simp [splitFirstUnderscore, hc, ih hcs]

/-- Splitting at the first underscore of `l ++ '_' :: r` when `l` is
underscore-free. -/
theorem splitFirstUnderscore_append :
    ∀ l r : List Char, '_' ∉ l →
      splitFirstUnderscore (l ++ '_' :: r) = some (l, r) := by
  intro l r
  induction l with
  | nil => intro; simp [splitFirstUnderscore]
  | cons c cs ih =>
      intro h
      have hc : ¬ c = '_' := fun hc => h (by simp [hc])
      have hcs : '_' ∉ cs := fun hm => h (List.mem_cons_of_mem c hm)
      simp [splitFirstUnderscore, hc, ih hcs]

/-- Counterexample to C4: the identifier `"A_"` contains the delimiter, yet
`_parse_id` yields `("unknown", "A")` — not the claimed prefix/suffix pair
`("A", "")`. -/
theorem parse_id_trailing_delimiter :
    '_' ∈ "A_".data ∧ parse_id "A_" = ("unknown", "A") ∧
      ("unknown", "A") ≠ (("A" : String), ("" : String)) := by
  exact ⟨by decide, by decide, by decide⟩

/-- C4 (amended): when the part after the first underscore is nonempty, the
split yields the prefix and that suffix; with no underscore the result is
`("unknown", identifier)`; and when the identifier ends right at the first
underscore, the empty suffix triggers the fallback `("unknown", prefix)`
instead of keeping the prefix as the study id. -/
theorem parse_id_spec :
    (∀ s : String, '_' ∉ s.data → parse_id s = ("unknown", s)) ∧
    (∀ a b : String, '_' ∉ a.data → b ≠ "" →
       parse_id (a ++ "_" ++ b) = (a, b)) ∧
    (∀ a : String, '_' ∉ a.data → parse_id (a ++ "_") = ("unknown", a)) := by
  refine ⟨?_, ?_, ?_⟩
  · intro s h
    simp [parse_id, splitFirstUnderscore_eq_none s.data h]
  · intro a b ha hb
    have hd : (a ++ "_" ++ b).data = a.data ++ '_' :: b.data := by
      simp [String.data_append]
    have hbne : ¬ b.data = [] := fun h0 => hb (String.ext h0)
    unfold parse_id
    rw [hd, splitFirstUnderscore_append a.data b.data ha]
    simp [hbne]
  · intro a ha
    have hd : (a ++ "_").data = a.data ++ '_' :: [] := by
      simp [String.data_append]
    unfold parse_id
    rw [hd, splitFirstUnderscore_append a.data [] ha]
    rfl

/-- Witness for the amended C4: concrete splits on `"A_B"`, `"A_B_C"`,
`"X"` and `"A_"`. -/
theorem parse_id_spec_witness :
    parse_id ("A" ++ "_" ++ "B") = ("A", "B") ∧
      parse_id ("A" ++ "_" ++ "B_C") = ("A", "B_C") ∧
      parse_id "X" = ("unknown", "X") ∧
      parse_id ("A" ++ "_") = ("unknown", "A") :=
  ⟨parse_id_spec.2.1 "A" "B" (by decide) (by decide),
   parse_id_spec.2.1 "A" "B_C" (by decide) (by decide),
   parse_id_spec.1 "X" (by decide),
   parse_id_spec.2.2 "A" (by decide)⟩

/-- C5: for a study whose export and precondition checks succeed, the four
ICF commands run in their strict source order against the single resolved
(study, visit) pair, each reported independently; with exit codes
[0, 1, 0, 0] all four are invoked, one failure and three successes are
reported, and the workflow still completes. -/
theorem icf_workflow_four_commands :
    ∀ (exp : String → Option ExportedDir) (listed : String → Option String)
      (exits : String → String → Int) (s : String) (d : ExportedDir)
      (pid : String),
      exp s = some d →
      (d.entries.filter (·.isDir)).length = 1 →
      listed s = some pid →
      exits s "make_studyvisit_archive" = 0 →
      exits s "deposit_visit_metadata" = 1 →
      exits s "deposit_visit_dataset" = 0 →
      exits s "catalogify_studyvisit_from_meta" = 0 →
      icf_workflow exp listed exits [s]
        = ([.processing s, .exportAttempt s, .exported d.path,
            .cmdResult "make_studyvisit_archive"
              (parse_id pid).1 (parse_id pid).2 0,
            .cmdResult "deposit_visit_metadata"
              (parse_id pid).1 (parse_id pid).2 1,
            .cmdResult "deposit_visit_dataset"
              (parse_id pid).1 (parse_id pid).2 0,
            .cmdResult "catalogify_studyvisit_from_meta"
              (parse_id pid).1 (parse_id pid).2 0], true) ∧
      (((icf_workflow exp listed exits [s]).1.filter cmdFailed).length = 1 ∧
       ((icf_workflow exp listed exits [s]).1.filter cmdOk).length = 3 ∧
       ((icf_workflow exp listed exits [s]).1.filter isCmdResult).length
         = 4) := by
  intro exp listed exits s d pid h1 h2 h3 h4 h5 h6 h7
  have hmain : icf_workflow exp listed exits [s]
      = ([.processing s, .exportAttempt s, .exported d.path,
          .cmdResult "make_studyvisit_archive"
            (parse_id pid).1 (parse_id pid).2 0,
          .cmdResult "deposit_visit_metadata"
            (parse_id pid).1 (parse_id pid).2 1,
          .cmdResult "deposit_visit_dataset"
            (parse_id pid).1 (parse_id pid).2 0,
          .cmdResult "catalogify_studyvisit_from_meta"
            (parse_id pid).1 (parse_id pid).2 0], true) := by
    simp [icf_workflow, h1, h2, h3, runIcfCommands, icfCommands, h4, h5, h6,
      h7]
  refine ⟨hmain, ?_⟩
  rw [hmain]
  exact ⟨rfl, rfl, rfl⟩

/-- Witness for C5: a concrete study with exit codes [0, 1, 0, 0] yields one
reported failure, three successes, and four invocations. -/
theorem icf_workflow_four_commands_witness :
    ((icf_workflow (fun _ => some ⟨"/tmp/A", [⟨"sub", true⟩]⟩)
        (fun _ => some "ST_V1")
        (fun _ c => if c == "deposit_visit_metadata" then 1 else 0)
        ["A"]).1.filter cmdFailed).length = 1 ∧
    ((icf_workflow (fun _ => some ⟨"/tmp/A", [⟨"sub", true⟩]⟩)
        (fun _ => some "ST_V1")
        (fun _ c => if c == "deposit_visit_metadata" then 1 else 0)
        ["A"]).1.filter cmdOk).length = 3 ∧
    ((icf_workflow (fun _ => some ⟨"/tmp/A", [⟨"sub", true⟩]⟩)
        (fun _ => some "ST_V1")
        (fun _ c => if c == "deposit_visit_metadata" then 1 else 0)
        ["A"]).1.filter isCmdResult).length = 4 :=
  (icf_workflow_four_commands (fun _ => some ⟨"/tmp/A", [⟨"sub", true⟩]⟩)
    (fun _ => some "ST_V1")
    (fun _ c => if c == "deposit_visit_metadata" then 1 else 0)
    "A" ⟨"/tmp/A", [⟨"sub", true⟩]⟩ "ST_V1" rfl (by decide) rfl (by decide)
    (by decide) (by decide) (by decide)).2

/-- C6: when the exported directory does not contain exactly one immediate
subdirectory, the `assert` fires: the study's processing stops right after
the export report, no ICF command is ever invoked, and the workflow errors
instead of picking a directory arbitrarily. -/
theorem icf_workflow_requires_single_subdir :
    ∀ (exp : String → Option ExportedDir) (listed : String → Option String)
      (exits : String → String → Int) (s : String) (rest : List String)
      (d : ExportedDir),
      exp s = some d →
      (d.entries.filter (·.isDir)).length ≠ 1 →
      icf_workflow exp listed exits (s :: rest)
        = ([.processing s, .exportAttempt s, .exported d.path], false) ∧
      ∀ ev ∈ (icf_workflow exp listed exits (s :: rest)).1,
        isCmdResult ev = false := by
  intro exp listed exits s rest d h1 h2
  have hmain : icf_workflow exp listed exits (s :: rest)
      = ([.processing s, .exportAttempt s, .exported d.path], false) := by
    simp [icf_workflow, h1, h2]
  refine ⟨hmain, ?_⟩
  rw [hmain]
  intro ev hev
  fin_cases hev <;> rfl

/-- Witness for C6: an exported directory with zero subdirectories stops the
study before any ICF command. -/
theorem icf_workflow_requires_single_subdir_witness :
    icf_workflow (fun _ => some ⟨"/tmp/A", []⟩) (fun _ => some "P_V")
        (fun _ _ => 0) ["A"]
      = ([.processing "A", .exportAttempt "A", .exported "/tmp/A"], false) :=
  (icf_workflow_requires_single_subdir (fun _ => some ⟨"/tmp/A", []⟩)
    (fun _ => some "P_V") (fun _ _ => 0) "A" [] ⟨"/tmp/A", []⟩ rfl
    (by decide)).1

/-! ## Filesystem lemmas for exportStudy -/

theorem getFile_setFile (fs : FS) (p : String) (c : List Nat) :
    (fs.setFile p c).getFile p = some c := by
  simp [FS.getFile, FS.setFile]

theorem getFile_writeChunks :
    ∀ (cs : List (List Nat)) (fs : FS) (p : String) (acc : List Nat),
      fs.getFile p = some acc →
      (writeChunks fs p cs).getFile p = some (acc ++ cs.flatten) := by
  intro cs
  induction cs with
  | nil => intro fs p acc h; simpa [writeChunks] using h
  | cons c cs ih =>
      intro fs p acc h
      have h1 : (fs.appendFile p c).getFile p = some (acc ++ c) := by
        simp [FS.appendFile, getFile_setFile, h]
      have h2 := ih (fs.appendFile p c) p (acc ++ c) h1
      simpa [writeChunks, List.append_assoc] using h2

theorem getFile_removeFile (fs : FS) (p : String) :
    (fs.removeFile p).getFile p = none := by
  have hfind : (fs.files.filter (fun kv => kv.1 != p)).find?
      (fun kv => kv.1 == p) = none := by
    rw [List.find?_eq_none]
    intro x hx
    have hne := (List.mem_filter.mp hx).2
    simp only [bne_iff_ne, ne_eq] at hne
    simp [hne]
  simp [FS.getFile, FS.removeFile, hfind]

theorem getDir_setDir (fs : FS) (p : String) (c : ZipContents) :
    (fs.setDir p c).getDir p = some c := by
  simp [FS.getDir, FS.setDir]

theorem getDir_removeFile (fs : FS) (p q : String) :
    (fs.removeFile q).getDir p = fs.getDir p := rfl

/-- The content written into the temporary zip file by the download loop is
exactly the concatenation of the received chunks. -/
theorem zip_content_after_download (r : Response (List (List Nat)))
    (sid : String) (fs : FS) :
    (writeChunks (fs.setFile (zipPath sid) []) (zipPath sid) r.body).getFile
        (zipPath sid) = some r.body.flatten := by
  simpa using getFile_writeChunks r.body (fs.setFile (zipPath sid) [])
    (zipPath sid) [] (getFile_setFile fs (zipPath sid) [])

/-- Counterexample to C3: a non-2xx archive download whose body happens to
be a valid zip makes `exportStudy` succeed — the code never checks the HTTP
status of the stream, so a non-2xx response alone does not yield an
ExportError. -/
theorem exportStudy_ignores_http_status :
    isSuccessStatus 404 = false ∧
    (exportStudy (fun _ => some [⟨"d", true⟩]) (.ok ⟨404, [[1, 2]]⟩) "s1"
        ⟨[], []⟩).2 = .ok (outPath "s1") :=
  ⟨by decide, rfl⟩

/-- C3 (amended): `exportStudy` fails exactly when the stream request raises
or the downloaded bytes cannot be unpacked; the HTTP status is never
consulted (the result is the same for any two statuses); and on an unpack
failure the partially-written temporary zip file is left behind. -/
theorem exportStudy_failure_modes :
    (∀ (unzip : List Nat → Option ZipContents) (e : NetError) (sid : String)
       (fs : FS),
       exportStudy unzip (.error e) sid fs = (fs, .error (.streamFailed e))) ∧
    (∀ (unzip : List Nat → Option ZipContents)
       (r : Response (List (List Nat))) (sid : String) (fs : FS),
       unzip r.body.flatten = none →
       (exportStudy unzip (.ok r) sid fs).2 = .error .badZip ∧
       (exportStudy unzip (.ok r) sid fs).1.getFile (zipPath sid)
         = some r.body.flatten) ∧
    (∀ (unzip : List Nat → Option ZipContents) (chunks : List (List Nat))
       (s1 s2 : Nat) (sid : String) (fs : FS),
       exportStudy unzip (.ok ⟨s1, chunks⟩) sid fs
         = exportStudy unzip (.ok ⟨s2, chunks⟩) sid fs) := by
  refine ⟨fun unzip e sid fs => rfl, ?_,
    fun unzip chunks s1 s2 sid fs => rfl⟩
  intro unzip r sid fs h
  have hw := zip_content_after_download r sid fs
  constructor
  · simp [exportStudy, hw, h]
  · simp [exportStudy, hw, h]

/-- Witness for the amended C3: two chunks that do not form a valid zip make
export fail and leave the zip file (holding exactly the received bytes) on
disk. -/
theorem exportStudy_failure_modes_witness :
    (exportStudy (fun _ => none) (.ok ⟨200, [[1], [2]]⟩) "s" ⟨[], []⟩).2
        = .error .badZip ∧
    (exportStudy (fun _ => none) (.ok ⟨200, [[1], [2]]⟩) "s"
        ⟨[], []⟩).1.getFile (zipPath "s") = some [1, 2] :=
  exportStudy_failure_modes.2.1 (fun _ => none) ⟨200, [[1], [2]]⟩ "s"
    ⟨[], []⟩ rfl

/-- C7: when download and unpack succeed, `exportStudy` accumulates the
received chunks — chunk by chunk — into the temporary zip file (its content
is the concatenation of the chunks), unpacks into the directory named after
the study id, deletes the zip, and returns that directory's path. -/
theorem exportStudy_success :
    ∀ (unzip : List Nat → Option ZipContents) (r : Response (List (List Nat)))
      (sid : String) (fs : FS) (contents : ZipContents),
      unzip r.body.flatten = some contents →
      (writeChunks (fs.setFile (zipPath sid) []) (zipPath sid) r.body).getFile
          (zipPath sid) = some r.body.flatten ∧
      (exportStudy unzip (.ok r) sid fs).2 = .ok (outPath sid) ∧
      (exportStudy unzip (.ok r) sid fs).1.getFile (zipPath sid) = none ∧
      (exportStudy unzip (.ok r) sid fs).1.getDir (outPath sid)
        = some contents ∧
      outPath sid = tmpdir ++ "/" ++ sid := by
  intro unzip r sid fs contents h
  have hw := zip_content_after_download r sid fs
  refine ⟨hw, ?_, ?_, ?_, rfl⟩
  · simp [exportStudy, hw, h]
  · simp [exportStudy, hw, h, getFile_removeFile]
  · simp [exportStudy, hw, h, getDir_removeFile, getDir_setDir]

/-- Witness for C7: a successful concrete export returns `/tmp/s`, deletes
the zip, and leaves the unpacked directory in place. -/
theorem exportStudy_success_witness :
    (exportStudy (fun _ => some [⟨"d", true⟩]) (.ok ⟨200, [[7], [8]]⟩) "s"
        ⟨[], []⟩).2 = .ok (outPath "s") ∧
    (exportStudy (fun _ => some [⟨"d", true⟩]) (.ok ⟨200, [[7], [8]]⟩) "s"
        ⟨[], []⟩).1.getFile (zipPath "s") = none ∧
    (exportStudy (fun _ => some [⟨"d", true⟩]) (.ok ⟨200, [[7], [8]]⟩) "s"
        ⟨[], []⟩).1.getDir (outPath "s") = some [⟨"d", true⟩] ∧
    outPath "s" = tmpdir ++ "/" ++ "s" :=
  (exportStudy_success (fun _ => some [⟨"d", true⟩]) ⟨200, [[7], [8]]⟩ "s"
    ⟨[], []⟩ [⟨"d", true⟩] rfl).2

end OrthancICF
